import Mathlib

/-!
Verification of the ratings scraper repository.

Shallow embedding of the data-extraction pipeline of the three modules
(the fuzzy-search scraper, the profile-lookup scraper with its sqlite
record sink, and the form-search scraper with the two-stage table
parser).  External effects (the browser DOM, the network, the driver
binaries) enter the model as explicit environment values; every pure
transformation is translated from the source.
-/

namespace Ratings

/-! ## Python string primitives used by the source -/

/-- Characters Python `str.strip()` removes (ASCII whitespace). -/
def isPyWhitespace (c : Char) : Bool :=
  c = ' ' || c = '\t' || c = '\n' || c = '\r' || c = '\x0b' || c = '\x0c'

/-- Python `s.strip()`: drop leading and trailing whitespace. -/
def pyStrip (s : String) : String :=
  ⟨((s.data.dropWhile isPyWhitespace).reverse.dropWhile isPyWhitespace).reverse⟩

/-- Python `s.isdigit()` restricted to ASCII text: non-empty and all
decimal digits. -/
def pyIsDigit (s : String) : Bool :=
  !s.data.isEmpty && s.data.all Char.isDigit

/-- Decimal value of a digit string (what Python `int(t)` returns on a
run of digits). -/
def strToNat (s : String) : Nat :=
  s.data.foldl (fun a c => a * 10 + (c.toNat - 48)) 0

/-- Python `s.replace(",", "")`: remove every comma. -/
def stripCommas (s : String) : String :=
  ⟨s.data.filter (fun c => c != ',')⟩

/-- No two consecutive underscores in a digit group. -/
def noDoubleUnderscore : List Char → Bool
  | [] => true
  | [_] => true
  | a :: b :: rest => !(a == '_' && b == '_') && noDoubleUnderscore (b :: rest)

/-- Digit part accepted by Python `int(str)`: non-empty, digits with
single underscores strictly between digits. -/
def validIntDigits (cs : List Char) : Bool :=
  !cs.isEmpty &&
  cs.all (fun c => c.isDigit || c == '_') &&
  (match cs.head? with | some c => c.isDigit | none => false) &&
  (match cs.getLast? with | some c => c.isDigit | none => false) &&
  noDoubleUnderscore cs

/-- Value of a valid int-digit group, ignoring underscores. -/
def intDigitsVal (cs : List Char) : Nat :=
  (cs.filter (fun c => c != '_')).foldl (fun a c => a * 10 + (c.toNat - 48)) 0

/-- Python `int(s)` on a string: strip whitespace, optional sign, then a
digit group (underscores allowed between digits); `none` models a
`ValueError`. -/
def pyIntParse (s : String) : Option Int :=
  let trimmed := ((s.data.dropWhile isPyWhitespace).reverse.dropWhile isPyWhitespace).reverse
  match trimmed with
  | '+' :: rest => if validIntDigits rest then some (Int.ofNat (intDigitsVal rest)) else none
  | '-' :: rest => if validIntDigits rest then some (-(Int.ofNat (intDigitsVal rest))) else none
  | rest => if validIntDigits rest then some (Int.ofNat (intDigitsVal rest)) else none

/-- Does `pat` occur as a contiguous substring? -/
def subOccurs (pat : List Char) : List Char → Bool
  | [] => pat.isEmpty
  | c :: rest => pat.isPrefixOf (c :: rest) || subOccurs pat rest

/-- Split around the first occurrence of `pat`: returns the part before
and the part after; `none` when `pat` does not occur. -/
def subSplitFirst (pat : List Char) : List Char → Option (List Char × List Char)
  | [] => if pat.isEmpty then some ([], []) else none
  | c :: rest =>
    if pat.isPrefixOf (c :: rest) then some ([], (c :: rest).drop pat.length)
    else
      match subSplitFirst pat rest with
      | some (pre, post) => some (c :: pre, post)
      | none => none

/-- Fuelled scanner for Python `s.split(sep)[-1]`: the suffix after the
last non-overlapping left-to-right match of `pat`; the whole string when
`pat` does not occur. -/
def pySplitLastFuel (pat : List Char) : Nat → List Char → List Char
  | 0, s => s
  | _ + 1, [] => []
  | fuel + 1, c :: rest =>
    if !pat.isEmpty && pat.isPrefixOf (c :: rest) then
      pySplitLastFuel pat fuel ((c :: rest).drop pat.length)
    else if subOccurs pat rest then
      pySplitLastFuel pat fuel rest
    else c :: rest

/-- Python `s.split(pat)[-1]`. -/
def pySplitLast (pat s : String) : String :=
  ⟨pySplitLastFuel pat.data s.data.length s.data⟩

/-- Fuelled scanner for Python `s.replace(pat, "")` with a non-empty
`pat`: delete every non-overlapping left-to-right match. -/
def removeSubFuel (pat : List Char) : Nat → List Char → List Char
  | 0, s => s
  | _ + 1, [] => []
  | fuel + 1, c :: rest =>
    if !pat.isEmpty && pat.isPrefixOf (c :: rest) then
      removeSubFuel pat fuel ((c :: rest).drop pat.length)
    else c :: removeSubFuel pat fuel rest

/-- Python `s.replace(pat, "")`. -/
def pyRemoveAll (pat s : String) : String :=
  ⟨removeSubFuel pat.data s.data.length s.data⟩

/-- Python slice `xs[:n]` for a possibly negative `n`. -/
def pySliceTo {α : Type} (n : Int) (xs : List α) : List α :=
  if 0 ≤ n then xs.take n.toNat
  else xs.take (xs.length - (-n).toNat)

/-! ## Rating badges (search_players.py, get_uscf_player_data, lines 136-172) -/

/-- The six-category rating mapping initialised to all `None` at
search_players.py lines 138-145. -/
structure RatingMap where
  regular : Option Int
  quick : Option Int
  blitz : Option Int
  online_regular : Option Int
  online_quick : Option Int
  online_blitz : Option Int
deriving Repr, DecidableEq

/-- All categories `None`, as in the source's initial dict literal. -/
def emptyRatingMap : RatingMap :=
  ⟨none, none, none, none, none, none⟩

/-- A rating badge as found in the DOM: the two class-scoped
sub-elements may each be missing (`find_element` raises). -/
structure Badge where
  typeEl : Option String
  valueEl : Option String
deriving Repr, DecidableEq

/-- The conversion at search_players.py line 159 (and its five
copies): `int(rating_value) if rating_value.isdigit() else None`. -/
def convertBadgeValue (t : String) : Option Int :=
  if pyIsDigit t then some (Int.ofNat (strToNat t)) else none

/-- One iteration of the badge loop (search_players.py lines 147-172):
a missing sub-element raises inside the per-badge `try` and the badge is
skipped; otherwise the stripped type code selects the category. -/
def applyBadge (r : RatingMap) (b : Badge) : RatingMap :=
  match b.typeEl, b.valueEl with
  | some tyRaw, some vRaw =>
    let ratingType := pyStrip tyRaw
    let ratingValue := pyStrip vRaw
    if ratingType = "R" then { r with regular := convertBadgeValue ratingValue }
    else if ratingType = "Q" then { r with quick := convertBadgeValue ratingValue }
    else if ratingType = "B" then { r with blitz := convertBadgeValue ratingValue }
    else if ratingType = "OR" then { r with online_regular := convertBadgeValue ratingValue }
    else if ratingType = "OQ" then { r with online_quick := convertBadgeValue ratingValue }
    else if ratingType = "OB" then { r with online_blitz := convertBadgeValue ratingValue }
    else r
  | _, _ => r

/-- The whole badge loop over a card's `.w-13` badge elements. -/
def ratingsFromBadges (bs : List Badge) : RatingMap :=
  bs.foldl applyBadge emptyRatingMap

/-- Python truthiness of an optional int (`None` and `0` are falsy). -/
def pyTruthyInt : Option Int → Bool
  | none => false
  | some n => n != 0

/-- Python `a or b` on optional ints. -/
def pyOr (a b : Option Int) : Option Int :=
  if pyTruthyInt a then a else b

/-- search_players.py line 183:
`primary_rating = ratings['regular'] or ratings['quick'] or ratings['blitz']`. -/
def primaryRating (r : RatingMap) : Option Int :=
  pyOr (pyOr r.regular r.quick) r.blitz

/-- The first non-null element of a list of optional values (the
spec's description of the primary-rating rule). -/
def firstNonNull : List (Option Int) → Option Int
  | [] => none
  | some v :: _ => some v
  | none :: rest => firstNonNull rest

/-! ## Driver acquisition (search_players.py, setup_chrome_driver, lines 24-88) -/

/-- The candidate driver locations of search_players.py lines 58-63. -/
def possible_paths : List String :=
  ["/usr/local/bin/chromedriver",
   "/opt/homebrew/bin/chromedriver",
   "/usr/bin/chromedriver",
   "chromedriver"]

/-- Which acquisition strategy produced the browser handle. -/
inductive DriverHandle
  | viaManager
  | viaSystemPath (path : String)
  | viaDefault
deriving Repr, DecidableEq

/-- Environment for driver acquisition: outcome of each external
attempt (WebDriverManager install plus launch, `os.path.exists`, launch
from an explicit path, launch with no explicit service). -/
structure DriverEnv where
  managerOk : Bool
  existsAt : String → Bool
  systemChromeOk : String → Bool
  defaultOk : Bool

/-- The path loop of search_players.py lines 65-74: a path is attempted
when it exists on disk or is the bare name `chromedriver`; a failed
launch is printed and the loop continues. -/
def tryPaths (env : DriverEnv) : List String → Option DriverHandle
  | [] => none
  | p :: rest =>
    if env.existsAt p || p == "chromedriver" then
      if env.systemChromeOk p then some (.viaSystemPath p)
      else tryPaths env rest
    else tryPaths env rest

/-- The message of the final `WebDriverException` at line 88. -/
def driverFailMsg : String :=
  "Could not initialize ChromeDriver with any method. Please ensure Chrome and ChromeDriver are properly installed."

/-- search_players.py setup_chrome_driver: WebDriverManager first, then
the well-known paths, then Chrome with no explicit service, each attempt
wrapped in its own exception handler; raises only after all fail. -/
def setup_chrome_driver (env : DriverEnv) : Except String DriverHandle :=
  if env.managerOk then .ok .viaManager
  else
    match tryPaths env possible_paths with
    | some h => .ok h
    | none =>
      if env.defaultOk then .ok .viaDefault
      else .error driverFailMsg

/-- The spec's view of one strategy slot: `some` handle when that
strategy would succeed, `none` when it would fail. -/
def strategyAttempts (env : DriverEnv) : List (Option DriverHandle) :=
  (if env.managerOk then some DriverHandle.viaManager else none) ::
  (possible_paths.map (fun p =>
    if (env.existsAt p || p == "chromedriver") && env.systemChromeOk p
    then some (DriverHandle.viaSystemPath p) else none)) ++
  [if env.defaultOk then some DriverHandle.viaDefault else none]

/-- First-success-wins over an ordered list of attempts. -/
def firstSuccess {α : Type} : List (Option α) → Option α
  | [] => none
  | some a :: _ => some a
  | none :: rest => firstSuccess rest

/-! ## Fuzzy search (search_players.py, get_uscf_player_data, lines 90-214) -/

/-- A value stored in a produced player dictionary. -/
inductive PVal
  | str (s : String)
  | ostr (o : Option String)
  | oint (o : Option Int)
  | rmap (r : RatingMap)
deriving Repr, DecidableEq

/-- A Python dictionary modelled as an association list. -/
def PyDict := List (String × PVal)
deriving DecidableEq

/-- A search-result card in the DOM. A `none` sub-element means the
corresponding `find_element` call raises. -/
structure Card where
  nameEl : Option String
  linkHref : Option String
  stateEl : Option String
  badges : List Badge
  expEl : Option String
deriving Repr, DecidableEq

/-- `state if state else None` at line 188: an empty stripped state
string becomes `None`. -/
def stateOrNone : Option String → Option String
  | none => none
  | some s => if s = "" then none else some s

/-- Per-card parsing (search_players.py lines 118-196): name and
profile-link lookups raise when missing and the card is skipped; the
state and expiration lookups have inner handlers defaulting to `None`;
the member id is the segment after `/player/` in the link href. -/
def parseCard (c : Card) : Option PyDict :=
  match c.nameEl, c.linkHref with
  | some nmRaw, some href =>
    let nm := pyStrip nmRaw
    let uscfId := pySplitLast "/player/" href
    let st := stateOrNone (c.stateEl.map pyStrip)
    let rts := ratingsFromBadges c.badges
    let expText := c.expEl.map (fun t => pyStrip (pyRemoveAll "Exp: " t))
    some [("name", .str nm),
          ("memberId", .str uscfId),
          ("state", .ostr st),
          ("ratings", .rmap rts),
          ("uscf_id", .str uscfId),
          ("rating", .oint (primaryRating rts)),
          ("expiration_date", .ostr expText)]
  | _, _ => none

/-- Browser-handle lifecycle events recorded by a run. -/
inductive HEvent
  | opened
  | closed
deriving Repr, DecidableEq

/-- Environment of one fuzzy-search invocation: the driver environment,
whether `driver.get` succeeds, and the result cards in the DOM. -/
structure SearchEnv where
  denv : DriverEnv
  navOk : Bool
  cards : List Card

/-- The body inside the outer `try` of get_uscf_player_data: acquire a
driver, navigate, slice the cards to `max_results`, parse each card
skipping the ones whose parsing raises; the inner `finally` always
quits the driver.  Returns the outcome together with the
handle-lifecycle trace. -/
def searchBody (env : SearchEnv) (maxResults : Int) :
    Except String (List PyDict) × List HEvent :=
  match setup_chrome_driver env.denv with
  | .error e => (.error e, [])
  | .ok _ =>
    if env.navOk then
      (.ok ((pySliceTo maxResults env.cards).filterMap parseCard),
       [.opened, .closed])
    else
      (.error "WebDriverException", [.opened, .closed])

/-- search_players.py get_uscf_player_data: the outer
`except Exception` turns any failure into an empty result list. -/
def get_uscf_player_data (env : SearchEnv) (searchTerm : String) (maxResults : Int) :
    List PyDict × List HEvent :=
  let _searchUrl := "https://beta-ratings.uschess.org/?fuzzy=" ++ searchTerm
  match searchBody env maxResults with
  | (.ok ps, tr) => (ps, tr)
  | (.error _, tr) => ([], tr)

/-- Keys of a player dictionary. -/
def dictKeys (d : PyDict) : List String :=
  d.map Prod.fst

/-- Key membership in a player dictionary. -/
def hasKey (d : PyDict) (k : String) : Bool :=
  (dictKeys d).contains k

/-! ## Profile lookup (test.py, get_uschess_info, lines 12-62) -/

/-- Environment of one profile lookup: whether the driver launches,
whether each `driver.get` succeeds, and the text of the rating node and
the expiration node (`none` models the wait timing out). -/
structure ProfileEnv where
  createOk : Bool
  navBetaOk : Bool
  ratingNode : Option String
  navMsaOk : Bool
  expNode : Option String
deriving Repr, DecidableEq

/-- Outcome of a profile lookup: the returned dictionary, the explicit
`None` return from the outer handler, or a propagated exception. -/
inductive LookupOutcome
  | ok (d : List (String × String))
  | noneResult
  | raised (e : String)
deriving Repr, DecidableEq

/-- test.py get_uschess_info.  Driver creation failure leaves `driver`
unbound so the `finally` raises `NameError` with no handle ever opened;
a navigation failure raises `WebDriverException`, which neither
exception clause catches; a rating-wait timeout is caught by the inner
handler leaving `rating = None`; an expiration-wait timeout is caught by
the outer handler which returns `None`; on success the returned rating
is the node text unless falsy, in which case it is `"Not found"`. -/
def get_uschess_info (env : ProfileEnv) (playerId : String) :
    LookupOutcome × List HEvent :=
  if !env.createOk then
    (.raised "NameError", [])
  else if !env.navBetaOk then
    (.raised "WebDriverException", [.opened, .closed])
  else
    let rating := env.ratingNode.map pyStrip
    if !env.navMsaOk then
      (.raised "WebDriverException", [.opened, .closed])
    else
      match env.expNode with
      | none => (.noneResult, [.opened, .closed])
      | some e =>
        let expirationDate := pyStrip e
        let ratingStr :=
          match rating with
          | some s => if s = "" then "Not found" else s
          | none => "Not found"
        (.ok [("rating", ratingStr),
              ("expiration_date", expirationDate),
              ("player_id", playerId)],
         [.opened, .closed])

/-! ## Record sink (test.py, update_player_rating_and_expiration, lines 113-146) -/

/-- A row of the `players` table (the fields the sink touches). -/
structure PlayerRow where
  id : Int
  rating : Option Int
  expiration_date : Option String
deriving Repr, DecidableEq

/-- The sqlite database state: the player rows and whether the
`expiration_date` column has been provisioned. -/
structure DB where
  players : List PlayerRow
  hasExpirationCol : Bool
deriving Repr, DecidableEq

/-- The sqlite errors the sink can see. -/
inductive SqlError
  | operational
deriving Repr, DecidableEq

/-- `ALTER TABLE players ADD COLUMN expiration_date TEXT`: raises
`sqlite3.OperationalError` when the column already exists. -/
def alterAddExpirationCol (db : DB) : Except SqlError DB :=
  if db.hasExpirationCol then .error .operational
  else .ok { db with hasExpirationCol := true }

/-- The provisioning step of the sink (test.py lines 132-137): the
`ALTER TABLE` wrapped in `try/except sqlite3.OperationalError: pass`. -/
def provisionExpirationCol (db : DB) : DB :=
  match alterAddExpirationCol db with
  | .ok db2 => db2
  | .error _ => db

/-- `UPDATE players SET rating = ? WHERE id = ?`. -/
def updateRatingRows (db : DB) (pid : Int) (n : Int) : DB :=
  { db with
    players := db.players.map
      (fun row => if row.id = pid then { row with rating := some n } else row) }

/-- `UPDATE players SET expiration_date = ? WHERE id = ?`. -/
def updateExpirationRows (db : DB) (pid : Int) (e : Option String) : DB :=
  { db with
    players := db.players.map
      (fun row => if row.id = pid then { row with expiration_date := e } else row) }

/-- The rating write of the sink (test.py lines 119-129): run when the
rating is truthy and not `"Not found"`; a `ValueError` from
`int(rating.replace(',', ''))` is caught and only printed. -/
def ratingWriteStep (db : DB) (pid : Int) : Option String → DB
  | none => db
  | some r =>
    if r ≠ "" ∧ r ≠ "Not found" then
      match pyIntParse (stripCommas r) with
      | some n => updateRatingRows db pid n
      | none => db
    else db

/-- test.py update_player_rating_and_expiration: write the rating when
convertible, provision the `expiration_date` column swallowing an
already-exists failure, then write the expiration date
unconditionally. -/
def update_player_rating_and_expiration (db : DB) (pid : Int)
    (rating expiration : Option String) : DB :=
  updateExpirationRows (provisionExpirationCol (ratingWriteStep db pid rating)) pid expiration

/-! ## Two-stage table parsing (pop.py, get_uscf_player_data, lines 87-137) -/

/-- The cell grid of a parsed frame: `none` is a NaN cell. -/
def Grid := List (List (Option String))
deriving DecidableEq

/-- `results_df.isnull().all().all()`: every cell of every row is null
(vacuously true of an empty frame). -/
def allNull (g : Grid) : Bool :=
  g.all (fun row => row.all Option.isNone)

/-- `re.search(r'<tbody>(.*?)</tbody>', html, re.DOTALL)`: the text
between the first `<tbody>` and the first `</tbody>` after it. -/
def tbodyBlock (html : String) : Option String :=
  match subSplitFirst "<tbody>".data html.data with
  | none => none
  | some (_, afterOpen) =>
    match subSplitFirst "</tbody>".data afterOpen with
    | none => none
    | some (content, _) => some ⟨content⟩

/-- Fuelled scanner for `re.findall(r'<tr[^>]*>(.*?)</tr>', s,
re.DOTALL)`: count the non-overlapping matches, each being `<tr`, then
the first following `>`, then the first following `</tr>`. -/
def trCountFuel : Nat → List Char → Nat
  | 0, _ => 0
  | fuel + 1, s =>
    match subSplitFirst "<tr".data s with
    | none => 0
    | some (_, afterOpen) =>
      match subSplitFirst ['>'] afterOpen with
      | none => 0
      | some (_, afterGt) =>
        match subSplitFirst "</tr>".data afterGt with
        | none => 0
        | some (_, afterClose) => 1 + trCountFuel fuel afterClose

/-- Number of `<tr ...>...</tr>` fragments of a string. -/
def trRowCount (content : String) : Nat :=
  trCountFuel content.data.length content.data

/-- The row count the fallback stage reports
(`Found {len(row_matches)} rows in tbody` at pop.py line 111); `none`
when the tbody pattern does not match and nothing is reported. -/
def tableFallbackCount (html : String) : Option Nat :=
  (tbodyBlock html).map trRowCount

/-- Terminal outcome of the two-stage table parse. -/
inductive ParseOutcome
  | structuredOk (g : Grid)
  | fallbackDiag (reportedRows : Option Nat)
  | noTables
  | parseFailed
deriving DecidableEq

/-- pop.py lines 91-137: `pd.read_html` yields a list of frames (`none`
models it raising, caught at line 133); an empty list returns the
no-data message; an all-null first frame invokes the regex fallback and
returns the diagnostic message after reporting the tbody row count;
otherwise the structured frame is cleaned and returned. -/
def twoStageParse (frames : Option (List Grid)) (html : String) : ParseOutcome :=
  match frames with
  | none => .parseFailed
  | some [] => .noTables
  | some (g :: _) =>
    if allNull g then .fallbackDiag (tableFallbackCount html)
    else .structuredOk g

/-! ## Form search (pop.py, get_uscf_player_data, lines 20-147) -/

/-- Environment of one form-search invocation: whether the driver
launches, whether the navigate/fill/click/wait steps all succeed, the
extracted table HTML and the structured-parse outcome. -/
structure PopEnv where
  createOk : Bool
  stepsOk : Bool
  html : String
  frames : Option (List Grid)
deriving DecidableEq

/-- Result of pop.py's get_uscf_player_data: a frame or a message
string. -/
inductive PopResult
  | frame (g : Grid)
  | msg (s : String)
deriving DecidableEq

/-- pop.py get_uscf_player_data: the driver is created before the
`try`, so a creation failure propagates with no handle open; a timeout
inside the body is caught and turned into a message; the `finally`
always quits the driver. -/
def popGetUscfPlayerData (env : PopEnv) :
    Except String PopResult × List HEvent :=
  if !env.createOk then
    (.error "WebDriverException", [])
  else if !env.stepsOk then
    (.ok (.msg "A timeout error occurred."), [.opened, .closed])
  else
    match twoStageParse env.frames env.html with
    | .structuredOk g => (.ok (.frame g), [.opened, .closed])
    | .fallbackDiag _ =>
      (.ok (.msg "Table found but no data extracted - structure issue"),
       [.opened, .closed])
    | .noTables =>
      (.ok (.msg "No data extracted from the table after search."),
       [.opened, .closed])
    | .parseFailed =>
      (.ok (.msg "Error parsing HTML table"), [.opened, .closed])

/-- Number of handle-open events of a trace. -/
def openCount (tr : List HEvent) : Nat :=
  tr.count .opened

/-- Number of handle-close events of a trace. -/
def closeCount (tr : List HEvent) : Nat :=
  tr.count .closed

/-- Handles still open when a trace ends. -/
def leakedHandles (tr : List HEvent) : Nat :=
  openCount tr - closeCount tr

/-- Did an `Except` computation succeed? -/
def exceptOk {ε α : Type} : Except ε α → Bool
  | .ok _ => true
  | .error _ => false

/-! ## Helper lemmas -/

/-- Every rating field of a map is a non-negative integer or absent. -/
def RatingMapNonneg (r : RatingMap) : Prop :=
  ∀ v : Int,
    (r.regular = some v ∨ r.quick = some v ∨ r.blitz = some v ∨
     r.online_regular = some v ∨ r.online_quick = some v ∨ r.online_blitz = some v) →
    0 ≤ v

theorem convertBadgeValue_nonneg (t : String) (v : Int)
    (h : convertBadgeValue t = some v) : 0 ≤ v := by
  unfold convertBadgeValue at h
  split at h
  · injection h with h
    exact h ▸ Int.ofNat_nonneg _
  · exact absurd h (by simp)

theorem applyBadge_nonneg (r : RatingMap) (b : Badge) (h : RatingMapNonneg r) :
    RatingMapNonneg (applyBadge r b) := by
  rcases b with ⟨ty, vl⟩
  cases ty with
  | none => exact h
  | some tyRaw =>
    cases vl with
    | none => exact h
    | some vRaw =>
      simp only [applyBadge]
      split_ifs <;> intro v hv <;>
        rcases hv with hv | hv | hv | hv | hv | hv <;>
        first
          | exact convertBadgeValue_nonneg _ _ hv
          | exact h v (Or.inl hv)
          | exact h v (Or.inr (Or.inl hv))
          | exact h v (Or.inr (Or.inr (Or.inl hv)))
          | exact h v (Or.inr (Or.inr (Or.inr (Or.inl hv))))
          | exact h v (Or.inr (Or.inr (Or.inr (Or.inr (Or.inl hv)))))
          | exact h v (Or.inr (Or.inr (Or.inr (Or.inr (Or.inr hv)))))

theorem foldl_badges_nonneg (bs : List Badge) (r : RatingMap)
    (h : RatingMapNonneg r) : RatingMapNonneg (bs.foldl applyBadge r) := by
  induction bs generalizing r with
  | nil => exact h
  | cons b rest ih => exact ih _ (applyBadge_nonneg r b h)

theorem emptyRatingMap_nonneg : RatingMapNonneg emptyRatingMap := by
  intro v hv
  rcases hv with hv | hv | hv | hv | hv | hv <;> simp [emptyRatingMap] at hv

/-! ## Claim theorems -/

/-- C1: for every rating badge text `t`, if `t` is a run of digits the
stored category value equals `int(t)`, otherwise it is `None`; hence
every rating field of a map produced by the badge loop is a
non-negative integer or `None`. -/
theorem c1_badge_conversion :
    (∀ t : String,
      (pyIsDigit t = true → convertBadgeValue t = some (Int.ofNat (strToNat t))) ∧
      (pyIsDigit t = false → convertBadgeValue t = none)) ∧
    (∀ bs : List Badge, RatingMapNonneg (ratingsFromBadges bs)) := by
  constructor
  · intro t
    constructor <;> intro h <;> simp [convertBadgeValue, h]
  · intro bs
    exact foldl_badges_nonneg bs emptyRatingMap emptyRatingMap_nonneg

/-- Witness for C1 at the badge texts "1500" and "15a0" and a concrete
badge list. -/
theorem c1_badge_conversion_witness :
    convertBadgeValue "1500" = some (Int.ofNat (strToNat "1500")) ∧
    convertBadgeValue "15a0" = none ∧
    (0 : Int) ≤ 1500 :=
  ⟨(c1_badge_conversion.1 "1500").1 (by decide),
   (c1_badge_conversion.1 "15a0").2 (by decide),
   c1_badge_conversion.2 [⟨some "R", some "1500"⟩] 1500 (by decide)⟩

/-- C5 counterexample: a record whose regular rating is the integer 0
(badge text "0") and whose quick rating is 1500 gets primary rating
1500, while the first non-null value in priority order is 0 — the
claim fails on the code because Python `or` skips a falsy 0. -/
theorem c5_counterexample :
    primaryRating (ratingsFromBadges [⟨some "R", some "0"⟩, ⟨some "Q", some "1500"⟩]) =
        some 1500 ∧
    firstNonNull
        [(ratingsFromBadges [⟨some "R", some "0"⟩, ⟨some "Q", some "1500"⟩]).regular,
         (ratingsFromBadges [⟨some "R", some "0"⟩, ⟨some "Q", some "1500"⟩]).quick,
         (ratingsFromBadges [⟨some "R", some "0"⟩, ⟨some "Q", some "1500"⟩]).blitz] =
        some 0 ∧
    primaryRating (ratingsFromBadges [⟨some "R", some "0"⟩, ⟨some "Q", some "1500"⟩]) ≠
      firstNonNull
        [(ratingsFromBadges [⟨some "R", some "0"⟩, ⟨some "Q", some "1500"⟩]).regular,
         (ratingsFromBadges [⟨some "R", some "0"⟩, ⟨some "Q", some "1500"⟩]).quick,
         (ratingsFromBadges [⟨some "R", some "0"⟩, ⟨some "Q", some "1500"⟩]).blitz] := by
  decide

/-- C5 amended: the primary rating is the first non-null, non-zero
value in priority order [regular, quick, blitz]; when every one of
regular and quick is null or zero, it equals the blitz value (hence
null when all three are null). -/
theorem c5_primary_rating_amended (r : RatingMap) :
    (∀ v, r.regular = some v → v ≠ 0 → primaryRating r = some v) ∧
    ((r.regular = none ∨ r.regular = some 0) →
      ∀ v, r.quick = some v → v ≠ 0 → primaryRating r = some v) ∧
    ((r.regular = none ∨ r.regular = some 0) →
      (r.quick = none ∨ r.quick = some 0) →
      primaryRating r = r.blitz) := by
  refine ⟨?_, ?_, ?_⟩
  · intro v hv hne
    simp [primaryRating, pyOr, pyTruthyInt, hv, hne]
  · rintro (h | h) v hv hne <;>
      simp [primaryRating, pyOr, pyTruthyInt, h, hv, hne]
  · rintro (h | h) (h2 | h2) <;>
      simp [primaryRating, pyOr, pyTruthyInt, h, h2]

/-- Witness for C5 amended at a concrete rating map. -/
theorem c5_primary_rating_amended_witness :
    primaryRating ⟨some 0, some 1500, none, none, none, none⟩ = some 1500 ∧
    primaryRating ⟨none, some 0, some 1800, none, none, none⟩ = some 1800 :=
  ⟨(c5_primary_rating_amended ⟨some 0, some 1500, none, none, none, none⟩).2.1
      (Or.inr rfl) 1500 rfl (by decide),
   (c5_primary_rating_amended ⟨none, some 0, some 1800, none, none, none⟩).2.2
      (Or.inl rfl) (Or.inr rfl)⟩

theorem mapExt {α β : Type} (f g : α → β) (l : List α) (h : ∀ a, f a = g a) :
    l.map f = l.map g := by
  induction l with
  | nil => rfl
  | cons x xs ih => simp only [List.map, h x, ih]

theorem provision_players (db : DB) :
    (provisionExpirationCol db).players = db.players := by
  unfold provisionExpirationCol alterAddExpirationCol
  cases h : db.hasExpirationCol <;> simp

theorem provision_col (db : DB) :
    (provisionExpirationCol db).hasExpirationCol = true := by
  unfold provisionExpirationCol alterAddExpirationCol
  cases h : db.hasExpirationCol <;> simp [h]

theorem updateExpirationRows_players (db : DB) (pid : Int) (e : Option String) :
    (updateExpirationRows db pid e).players =
      db.players.map
        (fun row => if row.id = pid then { row with expiration_date := e } else row) :=
  rfl

theorem ratingWriteStep_skip (db : DB) (pid : Int) (rating : Option String)
    (hskip : ∀ s, rating = some s →
      ¬(s ≠ "" ∧ s ≠ "Not found" ∧ ∃ n, pyIntParse (stripCommas s) = some n)) :
    ratingWriteStep db pid rating = db := by
  cases rating with
  | none => rfl
  | some s =>
    have hs := hskip s rfl
    unfold ratingWriteStep
    by_cases h1 : s ≠ "" ∧ s ≠ "Not found"
    · cases hp : pyIntParse (stripCommas s) with
      | none => simp [h1, hp]
      | some n => exact absurd ⟨h1.1, h1.2, n, hp⟩ hs
    · simp [h1]

theorem sink_untouched_rating_players (db : DB) (pid : Int)
    (rating expiration : Option String)
    (hskip : ∀ s, rating = some s →
      ¬(s ≠ "" ∧ s ≠ "Not found" ∧ ∃ n, pyIntParse (stripCommas s) = some n)) :
    (update_player_rating_and_expiration db pid rating expiration).players =
      db.players.map
        (fun row => if row.id = pid then { row with expiration_date := expiration } else row) := by
  unfold update_player_rating_and_expiration
  rw [ratingWriteStep_skip db pid rating hskip, updateExpirationRows_players,
    provision_players]

/-- C2: the record sink writes the rating only when it converts to an
integer after stripping commas (and then stores exactly that integer),
and always writes the expiration date to the target row; every other
row and field is untouched. -/
theorem c2_record_sink (db : DB) (pid : Int) (rating expiration : Option String) :
    ((∀ s, rating = some s → pyIntParse (stripCommas s) = none) →
      (update_player_rating_and_expiration db pid rating expiration).players =
        db.players.map
          (fun row => if row.id = pid then { row with expiration_date := expiration } else row)) ∧
    (∀ s n, rating = some s → pyIntParse (stripCommas s) = some n →
      (update_player_rating_and_expiration db pid rating expiration).players =
        db.players.map
          (fun row => if row.id = pid then
            { row with rating := some n, expiration_date := expiration } else row)) := by
  constructor
  · intro hnone
    refine sink_untouched_rating_players db pid rating expiration ?_
    intro s hs hcontra
    rcases hcontra with ⟨-, -, n, hn⟩
    rw [hnone s hs] at hn
    exact Option.noConfusion hn
  · intro s n hs hn
    subst hs
    have hs1 : s ≠ "" := by
      rintro rfl
      rw [show pyIntParse (stripCommas "") = none from by decide] at hn
      exact Option.noConfusion hn
    have hs2 : s ≠ "Not found" := by
      rintro rfl
      rw [show pyIntParse (stripCommas "Not found") = none from by decide] at hn
      exact Option.noConfusion hn
    have hstep : ratingWriteStep db pid (some s) = updateRatingRows db pid n := by
      unfold ratingWriteStep
      simp only [ne_eq, hs1, hs2, not_false_iff, and_self, if_true, hn]
    unfold update_player_rating_and_expiration
    rw [hstep, updateExpirationRows_players, provision_players]
    show ((db.players.map _).map _) = _
    rw [List.map_map]
    refine mapExt _ _ db.players ?_
    intro row
    by_cases hid : row.id = pid <;> simp [hid]

/-- Witness for C2: the rating string "2,104" is stored as the integer
2104 and the expiration date is written. -/
theorem c2_record_sink_witness :
    (update_player_rating_and_expiration ⟨[⟨1, none, none⟩], false⟩ 1
        (some "2,104") (some "2026-12-31")).players =
      [⟨1, some 2104, some "2026-12-31"⟩] := by
  have h := (c2_record_sink ⟨[⟨1, none, none⟩], false⟩ 1
      (some "2,104") (some "2026-12-31")).2 "2,104" 2104 rfl (by decide)
  rw [h]
  decide

/-- C3: provisioning of the expiration-date column is idempotent — when
the column already exists the ALTER step fails with an operational
error that is swallowed, leaving the database unchanged; the sink
always leaves the column provisioned, so a second invocation never
changes the schema. -/
theorem c3_provisioning_idempotent :
    (∀ db : DB, db.hasExpirationCol = true →
      alterAddExpirationCol db = .error .operational ∧
      provisionExpirationCol db = db) ∧
    (∀ db : DB,
      provisionExpirationCol (provisionExpirationCol db) = provisionExpirationCol db) ∧
    (∀ (db : DB) (pid : Int) (rating expiration : Option String),
      (update_player_rating_and_expiration db pid rating expiration).hasExpirationCol = true) := by
  have halter : ∀ db : DB, db.hasExpirationCol = true →
      alterAddExpirationCol db = .error .operational := by
    intro db h
    unfold alterAddExpirationCol
    simp [h]
  have hprov : ∀ db : DB, db.hasExpirationCol = true →
      provisionExpirationCol db = db := by
    intro db h
    unfold provisionExpirationCol
    rw [halter db h]
  refine ⟨fun db h => ⟨halter db h, hprov db h⟩, ?_, ?_⟩
  · intro db
    exact hprov _ (provision_col db)
  · intro db pid rating expiration
    unfold update_player_rating_and_expiration
    rw [updateExpirationRows]
    exact provision_col _

/-- Witness for C3 on a database whose expiration column already
exists. -/
theorem c3_provisioning_idempotent_witness :
    alterAddExpirationCol ⟨[⟨1, some 2000, none⟩], true⟩ = .error .operational ∧
    provisionExpirationCol ⟨[⟨1, some 2000, none⟩], true⟩ = ⟨[⟨1, some 2000, none⟩], true⟩ :=
  c3_provisioning_idempotent.1 ⟨[⟨1, some 2000, none⟩], true⟩ rfl

theorem firstSuccess_append {α : Type} (l1 l2 : List (Option α)) :
    firstSuccess (l1 ++ l2) =
      match firstSuccess l1 with
      | some a => some a
      | none => firstSuccess l2 := by
  induction l1 with
  | nil => rfl
  | cons x rest ih => cases x <;> simp [firstSuccess, ih]

theorem tryPaths_firstSuccess (env : DriverEnv) (ps : List String) :
    tryPaths env ps = firstSuccess (ps.map (fun p =>
      if (env.existsAt p || p == "chromedriver") && env.systemChromeOk p
      then some (DriverHandle.viaSystemPath p) else none)) := by
  induction ps with
  | nil => rfl
  | cons p rest ih =>
    simp only [tryPaths, List.map]
    cases h1 : env.existsAt p || p == "chromedriver" <;>
      cases h2 : env.systemChromeOk p <;>
      simp [firstSuccess, h1, h2, ih]

/-- C9: driver acquisition equals first-success-wins over the ordered
strategies (managed driver, each well-known path in order, framework
default); a strategy failure never propagates, a success returns
immediately, and the final exception is raised exactly when every
strategy failed. -/
theorem c9_driver_acquisition (env : DriverEnv) :
    setup_chrome_driver env =
      (match firstSuccess (strategyAttempts env) with
       | some h => Except.ok h
       | none => Except.error driverFailMsg) := by
  unfold setup_chrome_driver strategyAttempts
  cases hm : env.managerOk with
  | true => simp [firstSuccess]
  | false =>
    rw [tryPaths_firstSuccess env possible_paths]
    simp only [hm, Bool.false_eq_true, if_false, firstSuccess]
    rw [List.append_eq, firstSuccess_append]
    cases hfs : firstSuccess (possible_paths.map (fun p =>
        if (env.existsAt p || p == "chromedriver") && env.systemChromeOk p
        then some (DriverHandle.viaSystemPath p) else none)) with
    | some h => simp
    | none => cases hd : env.defaultOk <;> simp [firstSuccess, hd]

theorem parseCard_keys (c : Card) (d : PyDict) (h : parseCard c = some d) :
    dictKeys d =
      ["name", "memberId", "state", "ratings", "uscf_id", "rating", "expiration_date"] := by
  rcases c with ⟨nm, href, st, bs, ex⟩
  cases nm with
  | none => exact Option.noConfusion h
  | some nmRaw =>
    cases href with
    | none => exact Option.noConfusion h
    | some hrefRaw =>
      simp only [parseCard] at h
      injection h with h
      rw [← h]
      rfl

/-- A concrete driver environment in which WebDriverManager succeeds. -/
def managerDriverEnv : DriverEnv :=
  ⟨true, fun _ => false, fun _ => false, false⟩

/-- A concrete well-formed search-result card. -/
def sampleCard : Card :=
  ⟨some "Alice Smith", some "https://beta-ratings.uschess.org/player/111",
   some "CA", [⟨some "R", some "1200"⟩], some "Exp: 2026-01-01"⟩

/-- A concrete card whose name element is missing, so its parsing
raises. -/
def unparsableCard : Card :=
  ⟨none, some "https://beta-ratings.uschess.org/player/999", none, [], none⟩

/-- A second concrete well-formed card. -/
def sampleCard2 : Card :=
  ⟨some "Bob Smith", some "https://beta-ratings.uschess.org/player/222",
   none, [], none⟩

/-- A concrete search environment with three result cards, one of them
unparsable. -/
def sampleSearchEnv : SearchEnv :=
  ⟨managerDriverEnv, true, [sampleCard, unparsableCard, sampleCard2]⟩

/-- C7 counterexample: the claim quantifies over every `max_results`
value, but for the negative value -1 Python slicing keeps all but the
last card, so the search returns one dictionary where the claim allows
at most -1 — the produced list is not of length at most `n`. -/
theorem c7_counterexample :
    (get_uscf_player_data sampleSearchEnv "Smith" (-1)).1.length = 1 ∧
    ¬(((get_uscf_player_data sampleSearchEnv "Smith" (-1)).1.length : Int) ≤ -1) := by
  constructor
  · decide
  · decide

/-- C7 amended: for every search term and every non-negative
`max_results` value `n`, the fuzzy search returns at most `n` player
dictionaries, and every returned dictionary contains the keys `name`,
`memberId`, `state`, `ratings`, `rating` and `expiration_date`. -/
theorem search_result_eq (env : SearchEnv) (term : String) (n : Int) :
    (get_uscf_player_data env term n).1 =
      (if exceptOk (setup_chrome_driver env.denv) && env.navOk
       then (pySliceTo n env.cards).filterMap parseCard
       else []) := by
  unfold get_uscf_player_data searchBody
  rcases hs : setup_chrome_driver env.denv with e | hdl <;>
    cases hnav : env.navOk <;> simp [exceptOk, hs, hnav]

theorem sliceFilterLen (env : SearchEnv) (n : Int) (hn : 0 ≤ n) :
    ((pySliceTo n env.cards).filterMap parseCard).length ≤ n.toNat := by
  calc ((pySliceTo n env.cards).filterMap parseCard).length
      ≤ (pySliceTo n env.cards).length := List.length_filterMap_le _ _
    _ ≤ n.toNat := by
        unfold pySliceTo
        rw [if_pos hn]
        exact List.length_take_le _ _

theorem c7_fuzzy_search_shape (env : SearchEnv) (term : String) (n : Int)
    (hn : 0 ≤ n) :
    (((get_uscf_player_data env term n).1.length : Int) ≤ n) ∧
    (∀ d ∈ (get_uscf_player_data env term n).1,
      hasKey d "name" = true ∧ hasKey d "memberId" = true ∧
      hasKey d "state" = true ∧ hasKey d "ratings" = true ∧
      hasKey d "rating" = true ∧ hasKey d "expiration_date" = true) := by
  rw [search_result_eq]
  cases hcond : exceptOk (setup_chrome_driver env.denv) && env.navOk
  · rw [if_neg (by simp [hcond])]
    refine ⟨by simpa using hn, ?_⟩
    intro d hd
    simp at hd
  · rw [if_pos (by simp [hcond])]
    have hlen := sliceFilterLen env n hn
    refine ⟨by omega, ?_⟩
    intro d hd
    simp only [List.mem_filterMap] at hd
    rcases hd with ⟨c, -, hc⟩
    have hk := parseCard_keys c d hc
    simp [hasKey, hk]

/-- Witness for C7 amended at the concrete environment and
`max_results = 10`. -/
theorem c7_fuzzy_search_shape_witness :
    (((get_uscf_player_data sampleSearchEnv "Smith" 10).1.length : Int) ≤ 10) ∧
    (∀ d ∈ (get_uscf_player_data sampleSearchEnv "Smith" 10).1,
      hasKey d "name" = true ∧ hasKey d "memberId" = true ∧
      hasKey d "state" = true ∧ hasKey d "ratings" = true ∧
      hasKey d "rating" = true ∧ hasKey d "expiration_date" = true) :=
  c7_fuzzy_search_shape sampleSearchEnv "Smith" 10 (by decide)

/-- C10: the fuzzy-search entry point never raises — a driver
acquisition failure or a navigation failure yields the empty list, and
otherwise the result is exactly the successfully parsed cards of the
sliced card list (a card whose parsing raises is skipped, the rest are
kept). -/
theorem c10_search_error_handling (env : SearchEnv) (term : String) (n : Int) :
    (exceptOk (setup_chrome_driver env.denv) = false →
      (get_uscf_player_data env term n).1 = []) ∧
    (env.navOk = false → (get_uscf_player_data env term n).1 = []) ∧
    (exceptOk (setup_chrome_driver env.denv) = true → env.navOk = true →
      (get_uscf_player_data env term n).1 =
        (pySliceTo n env.cards).filterMap parseCard) := by
  refine ⟨?_, ?_, ?_⟩
  · intro h
    rw [search_result_eq, if_neg (by simp [h])]
  · intro h
    rw [search_result_eq, if_neg (by simp [h])]
  · intro h1 h2
    rw [search_result_eq, if_pos (by simp [h1, h2])]

/-- Witness for C10: the concrete environment yields exactly the two
successfully parsed cards, and a navigation failure yields the empty
list. -/
theorem c10_search_error_handling_witness :
    (get_uscf_player_data sampleSearchEnv "Smith" 10).1 =
      (pySliceTo 10 sampleSearchEnv.cards).filterMap parseCard ∧
    (get_uscf_player_data ⟨managerDriverEnv, false, [sampleCard]⟩ "Smith" 10).1 = [] :=
  ⟨(c10_search_error_handling sampleSearchEnv "Smith" 10).2.2 (by decide) rfl,
   (c10_search_error_handling ⟨managerDriverEnv, false, [sampleCard]⟩ "Smith" 10).2.1 rfl⟩

/-- C4: in each of the three top-level scrape functions, one browser
handle is created exactly when driver acquisition succeeds, and every
execution path — including the ones where an exception is raised
mid-record — closes every handle it opened, so no execution terminates
with a handle still open. -/
theorem c4_handle_lifecycle :
    (∀ (env : ProfileEnv) (pid : String),
      openCount (get_uschess_info env pid).2 = (if env.createOk then 1 else 0) ∧
      closeCount (get_uschess_info env pid).2 = openCount (get_uschess_info env pid).2 ∧
      leakedHandles (get_uschess_info env pid).2 = 0) ∧
    (∀ (env : SearchEnv) (term : String) (n : Int),
      openCount (get_uscf_player_data env term n).2 =
        (if exceptOk (setup_chrome_driver env.denv) then 1 else 0) ∧
      closeCount (get_uscf_player_data env term n).2 =
        openCount (get_uscf_player_data env term n).2 ∧
      leakedHandles (get_uscf_player_data env term n).2 = 0) ∧
    (∀ env : PopEnv,
      openCount (popGetUscfPlayerData env).2 = (if env.createOk then 1 else 0) ∧
      closeCount (popGetUscfPlayerData env).2 = openCount (popGetUscfPlayerData env).2 ∧
      leakedHandles (popGetUscfPlayerData env).2 = 0) := by
  refine ⟨?_, ?_, ?_⟩
  · intro env pid
    unfold get_uschess_info
    cases hc : env.createOk <;> cases hb : env.navBetaOk <;> cases hm : env.navMsaOk <;>
      cases he : env.expNode <;>
      simp [openCount, closeCount, leakedHandles, List.count_cons]
  · intro env term n
    unfold get_uscf_player_data searchBody
    rcases hs : setup_chrome_driver env.denv with e | hdl <;> cases hnav : env.navOk <;>
      simp [openCount, closeCount, leakedHandles, exceptOk, List.count_cons]
  · intro env
    unfold popGetUscfPlayerData
    cases hc : env.createOk <;> cases hst : env.stepsOk <;>
      cases hp : twoStageParse env.frames env.html <;>
      simp [hp, openCount, closeCount, leakedHandles, List.count_cons]

/-- C8: a profile lookup in which the expiration wait succeeds returns
a dictionary with exactly the keys rating, expiration_date and
player_id, the player_id value being the queried member id; when the
rating node was never found within its timeout the rating value is the
literal string "Not found". -/
theorem c8_profile_lookup (env : ProfileEnv) (pid : String) (e : String)
    (hc : env.createOk = true) (hb : env.navBetaOk = true)
    (hm : env.navMsaOk = true) (he : env.expNode = some e) :
    ∃ d, (get_uschess_info env pid).1 = .ok d ∧
      d.map Prod.fst = ["rating", "expiration_date", "player_id"] ∧
      d.lookup "player_id" = some pid ∧
      (env.ratingNode = none → d.lookup "rating" = some "Not found") := by
  unfold get_uschess_info
  rw [hc, hb, hm, he]
  simp only [Bool.not_true, Bool.false_eq_true, if_false]
  refine ⟨_, rfl, rfl, ?_, ?_⟩
  · simp [List.lookup]
  · intro hr
    rw [hr]
    simp [List.lookup]

/-- Witness for C8 at member id "14970943" with the rating wait timing
out. -/
theorem c8_profile_lookup_witness :
    ∃ d, (get_uschess_info ⟨true, true, none, true, some " 2026-06-30 "⟩ "14970943").1 = .ok d ∧
      d.map Prod.fst = ["rating", "expiration_date", "player_id"] ∧
      d.lookup "player_id" = some "14970943" ∧
      ((⟨true, true, none, true, some " 2026-06-30 "⟩ : ProfileEnv).ratingNode = none →
        d.lookup "rating" = some "Not found") :=
  c8_profile_lookup ⟨true, true, none, true, some " 2026-06-30 "⟩ "14970943"
    " 2026-06-30 " rfl rfl rfl rfl

/-- C6: the fallback stage of the two-stage table parser runs exactly
when structured parsing produced a frame whose cells are all
empty/null, and the row count it reports is the number of `<tr>`
fragments of the `<tbody>` block of the source HTML. -/
theorem c6_fallback_transition (frames : Option (List Grid)) (html : String) :
    (∀ c, twoStageParse frames html = .fallbackDiag c ↔
      (∃ g rest, frames = some (g :: rest) ∧ allNull g = true ∧
        c = tableFallbackCount html)) ∧
    (∀ content, tbodyBlock html = some content →
      tableFallbackCount html = some (trRowCount content)) := by
  constructor
  · intro c
    constructor
    · intro h
      cases frames with
      | none => exact absurd h (by simp [twoStageParse])
      | some fs =>
        cases fs with
        | nil => exact absurd h (by simp [twoStageParse])
        | cons g rest =>
          by_cases hg : allNull g = true
          · refine ⟨g, rest, rfl, hg, ?_⟩
            simp only [twoStageParse] at h
            rw [if_pos hg] at h
            injection h with h
            exact h.symm
          · simp only [twoStageParse] at h
            rw [if_neg hg] at h
            exact absurd h (by simp)
    · rintro ⟨g, rest, rfl, hg, rfl⟩
      simp only [twoStageParse]
      rw [if_pos hg]
  · intro content hcontent
    unfold tableFallbackCount
    rw [hcontent]
    rfl

/-- Witness for C6: an all-null frame with a two-row tbody triggers the
fallback reporting two rows. -/
theorem c6_fallback_transition_witness :
    twoStageParse (some [[[none, none]]])
        "<tbody><tr><td>a</td></tr><tr></tr></tbody>" =
      .fallbackDiag (some 2) :=
  ((c6_fallback_transition (some [[[none, none]]])
      "<tbody><tr><td>a</td></tr><tr></tr></tbody>").1 (some 2)).mpr
    ⟨[[none, none]], [], rfl, by decide, by decide⟩

end Ratings
